import Mathlib

/-!
Verification of the Neustrelitz Peak Density Model (NPDM) implementation in
`src/electron_density_model/neustrelitz_peak_density_model.py`.

The Python classes are embedded as Lean functions over `ℝ` (Python floats are
modelled by real numbers, so every statement is exact rather than up to
floating-point tolerance).  Each class stores its constructor arguments and
exposes pure calculation methods, so every method becomes a function of the
constructor arguments.  Python exceptions are modelled with `Except PyError`:
a list subscript `c[i]` raises `IndexError` when `i` is out of range, and a
float division raises `ZeroDivisionError` when the divisor is zero.  The
error taxonomy of the design document (`DomainError`, `ValidationError`) is
included as constructors so that statements about which error is raised can
be expressed; the code itself only ever produces `zeroDivisionError` and
`indexError`.
-/

open Real

namespace NPDM

/-- The exceptions relevant to this module: the two that CPython actually
raises in this code (`ZeroDivisionError` from a float division by zero and
`IndexError` from an out-of-range list subscript), together with the two
error classes that the design document postulates (`DomainError`,
`ValidationError`). -/
inductive PyError where
  | zeroDivisionError : PyError
  | indexError : PyError
  | domainError : PyError
  | validationError : PyError
deriving DecidableEq

noncomputable section

/-- Python list subscript `coefficients[i]` (with a nonnegative literal
index, as in the source): returns the element, or raises `IndexError` when
the index is out of range. -/
def listGet (c : List ℝ) (i : ℕ) : Except PyError ℝ :=
  match c.get? i with
  | some v => Except.ok v
  | none => Except.error PyError.indexError

/-- Embeds `LocalTimeF1.calculate_local_time_variations` (lines 63-83): the
diurnal, semi-diurnal and ter-diurnal harmonic phases.  The local constant
`phase_shift = 14` is inlined. -/
def calculate_local_time_variations (local_time_hours : ℝ) : ℝ × ℝ × ℝ :=
  ((2 * π * (local_time_hours - 14)) / 24,
   (2 * π * local_time_hours) / 12,
   (2 * π * local_time_hours) / 8)

/-- Embeds `LocalTimeF1.calculate_solar_zenith_angles` (lines 85-107).  The local
constant `solar_zenith_angle_correction = 0.4` (PF1) is inlined.  Note the
source really applies `math.cos` to `cos_solar_zenith_angle` a second
time. -/
def calculate_solar_zenith_angles (latitude_radians sun_declination_radians : ℝ) : ℝ × ℝ :=
  (Real.cos (Real.sin latitude_radians * Real.sin sun_declination_radians +
      Real.cos latitude_radians * Real.cos sun_declination_radians) -
    ((2 * latitude_radians) / π) * Real.sin sun_declination_radians,
   Real.cos (Real.sin latitude_radians * Real.sin sun_declination_radians +
      Real.cos latitude_radians * Real.cos sun_declination_radians) + 0.4)

/-- Embeds `LocalTimeF1.calculate_local_time_at_beginning_of_bite_out`
(lines 109-121):
`13 + 1.5 * cos((2π(day_of_year - 181))/365.25) * (lat / fabs(lat))`.
`math.fabs latitude_radians` is `|latitude_radians|`; the division raises
`ZeroDivisionError` exactly when the latitude is `0`. -/
def calculate_local_time_at_beginning_of_bite_out
    (latitude_radians day_of_year : ℝ) : Except PyError ℝ :=
  if latitude_radians = 0 then Except.error PyError.zeroDivisionError
  else Except.ok (13 + 1.5 * Real.cos ((2 * π * (day_of_year - 181)) / 365.25) *
    (latitude_radians / |latitude_radians|))

/-- Embeds `LocalTimeF1.calculate_summer_daytime_bite_out` (lines 123-140),
transcribed with Python operator precedence kept exactly:
`fabs(lat) - 45**2` is `|lat| - 45 ^ 2` (the subtraction is NOT squared),
and `(lat - ltbo)**2 / 2 * 3**2` is `((lat - ltbo) ^ 2 / 2) * 3 ^ 2`
(`/` and `*` associate left in Python just as in Lean).  The local
constants `fixed_geographic_latitude = 45`, `gaussian_half_width_degree =
14` and `gaussian_half_width_hours = 3` are inlined.  The second sign
division `lat / fabs(lat)` is only reached when the `ltbo` computation
already succeeded, i.e. when the latitude is nonzero, so it cannot raise. -/
def calculate_summer_daytime_bite_out
    (latitude_radians day_of_year : ℝ) : Except PyError ℝ :=
  (calculate_local_time_at_beginning_of_bite_out latitude_radians day_of_year).map
    (fun ltbo =>
      Real.exp (-((|latitude_radians| - 45 ^ 2) / (2 * 14 ^ 2))) *
        Real.cos ((2 * π * (day_of_year - 181)) / 365.25) *
        Real.exp (-((latitude_radians - ltbo) ^ 2 / 2 * 3 ^ 2)) *
        (latitude_radians / |latitude_radians|))

/-- Embeds `LocalTimeF1.calculate_local_time_F1` (lines 142-158).  The bite-out is
computed (line 153) before the coefficient subscripts of line 155-156 are
evaluated, so a `ZeroDivisionError` from the sign term surfaces before any
`IndexError` from a short coefficient list. -/
def calculate_local_time_F1 (local_time_hours latitude_radians
    sun_declination_radians day_of_year : ℝ) (coefficients : List ℝ) :
    Except PyError ℝ :=
  (calculate_summer_daytime_bite_out latitude_radians day_of_year).bind
    (fun summer_daytime_bite_out =>
      (listGet coefficients 0).bind fun c0 =>
      (listGet coefficients 1).bind fun c1 =>
      (listGet coefficients 2).bind fun c2 =>
      (listGet coefficients 3).bind fun c3 =>
      (listGet coefficients 4).bind fun c4 =>
      (listGet coefficients 5).bind fun c5 =>
        Except.ok
          (Real.cos (calculate_solar_zenith_angles latitude_radians
              sun_declination_radians).2 +
            (c0 * Real.cos (calculate_local_time_variations local_time_hours).1 +
              c1 * Real.cos (calculate_local_time_variations local_time_hours).2.1 +
              c2 * Real.sin (calculate_local_time_variations local_time_hours).2.1 +
              c3 * Real.cos (calculate_local_time_variations local_time_hours).2.2 +
              c4 * Real.sin (calculate_local_time_variations local_time_hours).2.2) *
              Real.cos (calculate_solar_zenith_angles latitude_radians
                sun_declination_radians).1 +
            c5 * summer_daytime_bite_out))

/-- Embeds `SeasonalVariationF2.calculate_annual_variation` (lines 202-217), with
`phase_shift = 18` inlined. -/
def calculate_annual_variation (day_of_year : ℝ) : ℝ :=
  (2 * π * (day_of_year - 18)) / 365.25

/-- Embeds `SeasonalVariationF2.calculate_semi_annual_variation` (lines 219-233),
with `phase_shift = 6` inlined. -/
def calculate_semi_annual_variation (day_of_year : ℝ) : ℝ :=
  (4 * π * (day_of_year - 6)) / 365.25

/-- Embeds `SeasonalVariationF2.calculate_seasonal_variation_F2` (lines 235-250):
`1 + c[6]*cos(annual) + c[7]*cos(semi_annual)`. -/
def calculate_seasonal_variation_F2 (day_of_year : ℝ) (coefficients : List ℝ) :
    Except PyError ℝ :=
  (listGet coefficients 6).bind fun c6 =>
  (listGet coefficients 7).bind fun c7 =>
    Except.ok (1 + c6 * Real.cos (calculate_annual_variation day_of_year) +
      c7 * Real.cos (calculate_semi_annual_variation day_of_year))

/-- Embeds `GeomagneticFieldDependencyF3.calculate_geomagentic_field_dependency`
(lines 288-300): `1 + c[8]*cos(geommagnetic_latitude)`. -/
def calculate_geomagentic_field_dependency (geommagnetic_latitude : ℝ)
    (coefficients : List ℝ) : Except PyError ℝ :=
  (listGet coefficients 8).bind fun c8 =>
    Except.ok (1 + c8 * Real.cos geommagnetic_latitude)

/-- Embeds `IonizationCrestsF4.calculate_half_width` (lines 351-367), with
`coefficient_half_width_time = 12` inlined:
`20 - 10 * exp(-((local_time_hours - 14)^2 / (2 * 12^2)))`. -/
def calculate_half_width (local_time_hours : ℝ) : ℝ :=
  20 - 10 * Real.exp (-((local_time_hours - 14) ^ 2 / (2 * 12 ^ 2)))

/-- Embeds `IonizationCrestsF4.calculate_ionization_crest_1` (lines 369-386), with
`northward_crest_degrees = 16` inlined. -/
def calculate_ionization_crest_1 (geommagnetic_latitude local_time_hours : ℝ) : ℝ :=
  -((geommagnetic_latitude - 16) ^ 2 / (2 * calculate_half_width local_time_hours ^ 2))

/-- Embeds `IonizationCrestsF4.calculate_ionization_crest_2` (lines 388-405), with
`southward_crest_degrees = -15` inlined. -/
def calculate_ionization_crest_2 (geommagnetic_latitude local_time_hours : ℝ) : ℝ :=
  -((geommagnetic_latitude - (-15)) ^ 2 / (2 * calculate_half_width local_time_hours ^ 2))

/-- Embeds `IonizationCrestsF4.calculate_ionization_crest_F4` (lines 407-423):
`1 + c[9]*exp(crest_1) + c[10]*exp(crest_2)`. -/
def calculate_ionization_crest_F4 (geommagnetic_latitude : ℝ)
    (local_time_hours : ℝ) (coefficients : List ℝ) : Except PyError ℝ :=
  (listGet coefficients 9).bind fun c9 =>
  (listGet coefficients 10).bind fun c10 =>
    Except.ok (1 + c9 * Real.exp
        (calculate_ionization_crest_1 geommagnetic_latitude local_time_hours) +
      c10 * Real.exp
        (calculate_ionization_crest_2 geommagnetic_latitude local_time_hours))

/-- Embeds `SolarActivityF5.calculate_solar_activity_F5` (lines 462-476), with
`delta_F107 = 12` inlined: the source computes
`c[11] + c[12] * solar_flux_F107 * delta_F107`, i.e. the flux index IS
multiplied by the fixed `delta_F107 = 12` constant. -/
def calculate_solar_activity_F5 (solar_flux_F107 : ℝ) (coefficients : List ℝ) :
    Except PyError ℝ :=
  (listGet coefficients 11).bind fun c11 =>
  (listGet coefficients 12).bind fun c12 =>
    Except.ok (c11 + c12 * solar_flux_F107 * 12)

/-- Embeds `NeustrelitzPeakDensityModel.calculate_neustrelitz_peak_electron_model`
(lines 532-545): the plain product of the five already-computed factors. -/
def calculate_neustrelitz_peak_electron_model (local_time_F1
    seasonal_variation_F2 geomagentic_field_dependency_F3 ionization_crest_F4
    solar_activity_F5 : ℝ) : ℝ :=
  local_time_F1 * seasonal_variation_F2 * geomagentic_field_dependency_F3 *
    ionization_crest_F4 * solar_activity_F5

/-- Modelled from the spec: the bite-out magnitude as section 4.1 step 4 of
the design document states it (the implementation of
`calculate_summer_daytime_bite_out` is compared against this): the product
of the latitude-Gaussian envelope `exp(-((|lat| - 45)^2)/(2*14^2))`, the
seasonal cosine `cos(2π(day - 181)/365.25)`, the time-Gaussian envelope
centered on the bite-out onset `exp(-((lt - ltbo)^2)/(2*3^2))`, and
`sign(lat) = lat/|lat|`. -/
def bite_out_magnitude_spec (local_time_hours latitude_radians day_of_year
    ltbo : ℝ) : ℝ :=
  Real.exp (-((|latitude_radians| - 45) ^ 2 / (2 * 14 ^ 2))) *
    Real.cos ((2 * π * (day_of_year - 181)) / 365.25) *
    Real.exp (-((local_time_hours - ltbo) ^ 2 / (2 * 3 ^ 2))) *
    (latitude_radians / |latitude_radians|)

end

/-! ### Helper lemmas -/

theorem listGet_ok {c : List ℝ} {i : ℕ} (hi : i < c.length) :
    listGet c i = Except.ok (c.get ⟨i, hi⟩) := by
  unfold listGet
  rw [List.get?_eq_get hi]

theorem listGet_idx {c : List ℝ} {i : ℕ} (hi : c.length ≤ i) :
    listGet c i = Except.error PyError.indexError := by
  unfold listGet
  rw [List.get?_eq_none.mpr hi]

/-- The half width always lies in the half-open interval `[10, 20)`. -/
theorem half_width_bounds (t : ℝ) :
    10 ≤ calculate_half_width t ∧ calculate_half_width t < 20 := by
  unfold calculate_half_width
  have hnonneg : (0:ℝ) ≤ (t - 14) ^ 2 / (2 * 12 ^ 2) := by positivity
  have h1 : Real.exp (-((t - 14) ^ 2 / (2 * 12 ^ 2))) ≤ 1 :=
    Real.exp_le_one_iff.mpr (by linarith)
  have h2 : 0 < Real.exp (-((t - 14) ^ 2 / (2 * 12 ^ 2))) := Real.exp_pos _
  constructor <;> linarith

/-- A scaled Gaussian term `coef * exp(-(u^2/y))` with a positive
coefficient is at most `coef * 1`, with equality exactly when `u = 0`. -/
theorem crest_aux (coef y u : ℝ) (hc : 0 < coef) (hy : 0 < y) :
    coef * Real.exp (-(u ^ 2 / y)) ≤ coef * 1 ∧
    (coef * Real.exp (-(u ^ 2 / y)) = coef * 1 → u = 0) := by
  have hle : -(u ^ 2 / y) ≤ 0 := neg_nonpos.mpr (div_nonneg (sq_nonneg u) hy.le)
  constructor
  · exact mul_le_mul_of_nonneg_left (Real.exp_le_one_iff.mpr hle) hc.le
  · intro h
    have he : Real.exp (-(u ^ 2 / y)) = 1 := mul_left_cancel₀ hc.ne' (by simpa using h)
    have h0 : -(u ^ 2 / y) = 0 :=
      Real.exp_injective (by rw [he, Real.exp_zero])
    have hdiv : u ^ 2 / y = 0 := by linarith
    have hsq : u ^ 2 = 0 := by
      rcases div_eq_zero_iff.mp hdiv with h2 | h2
      · exact h2
      · exact absurd h2 hy.ne'
    exact pow_eq_zero_iff (two_ne_zero) |>.mp hsq

/-! ### Claim theorems -/

/-- Claim C5 (amended): the ionization-crest half width equals
`20 - 10*exp(-((t - 14)^2)/(2*12^2))`, is strictly positive, and lies in
the half-open interval `[10, 20)` (at `t = 14` it is exactly `10`, so the
open interval claimed by the spec fails there); consequently the divisors
`2 * half_width^2` in the crest exponents are never zero. -/
theorem half_width_formula_and_range (t : ℝ) :
    calculate_half_width t = 20 - 10 * Real.exp (-((t - 14) ^ 2 / (2 * 12 ^ 2))) ∧
    0 < calculate_half_width t ∧
    10 ≤ calculate_half_width t ∧
    calculate_half_width t < 20 ∧
    2 * calculate_half_width t ^ 2 ≠ 0 := by
  obtain ⟨h10, h20⟩ := half_width_bounds t
  refine ⟨rfl, by linarith, h10, h20, ?_⟩
  have hpos : (0:ℝ) < 2 * calculate_half_width t ^ 2 := by nlinarith
  exact ne_of_gt hpos

/-- Claim C5 counterexample: at local time `14` the half width is exactly
`10`, so it does not lie strictly inside `(10, 20)` as the claim states. -/
theorem half_width_at_fourteen :
    calculate_half_width 14 = 10 ∧ ¬ (10 < calculate_half_width 14) := by
  have h : calculate_half_width 14 = 10 := by
    unfold calculate_half_width
    norm_num [Real.exp_zero]
  exact ⟨h, by rw [h]; exact lt_irrefl 10⟩

/-- Claim C6: the combiner returns exactly the product `f1*f2*f3*f4*f5`
with no clamping or re-validation, so on the all-ones factor values it
returns `1`; moreover with the zero-effect coefficient vector
`[0,0,0,0,0,0,0,0,0,0,0,1,0]` the factors F2, F3, F4 and F5 each evaluate
to `1`. -/
theorem peak_density_combiner_product (f1 f2 f3 f4 f5 d g t s : ℝ) :
    calculate_neustrelitz_peak_electron_model f1 f2 f3 f4 f5 =
      f1 * f2 * f3 * f4 * f5 ∧
    calculate_neustrelitz_peak_electron_model 1 1 1 1 1 = 1 ∧
    calculate_seasonal_variation_F2 d [0,0,0,0,0,0,0,0,0,0,0,1,0] = Except.ok 1 ∧
    calculate_geomagentic_field_dependency g [0,0,0,0,0,0,0,0,0,0,0,1,0] =
      Except.ok 1 ∧
    calculate_ionization_crest_F4 g t [0,0,0,0,0,0,0,0,0,0,0,1,0] = Except.ok 1 ∧
    calculate_solar_activity_F5 s [0,0,0,0,0,0,0,0,0,0,0,1,0] = Except.ok 1 := by
  refine ⟨rfl, ?_, ?_, ?_, ?_, ?_⟩
  · show (1:ℝ) * 1 * 1 * 1 * 1 = 1
    norm_num
  · show Except.ok ((1:ℝ) + 0 * Real.cos (calculate_annual_variation d) +
      0 * Real.cos (calculate_semi_annual_variation d)) = Except.ok 1
    exact congrArg Except.ok (by ring)
  · show Except.ok ((1:ℝ) + 0 * Real.cos g) = Except.ok 1
    exact congrArg Except.ok (by ring)
  · show Except.ok ((1:ℝ) + 0 * Real.exp (calculate_ionization_crest_1 g t) +
      0 * Real.exp (calculate_ionization_crest_2 g t)) = Except.ok 1
    exact congrArg Except.ok (by ring)
  · show Except.ok ((1:ℝ) + 0 * s * 12) = Except.ok 1
    exact congrArg Except.ok (by ring)

/-- Claim C7: the seasonal variation factor F2 is periodic in the day with
period `365.25`, for every real day and every coefficient list. -/
theorem seasonal_variation_F2_periodic (d : ℝ) (c : List ℝ) :
    calculate_seasonal_variation_F2 d c =
      calculate_seasonal_variation_F2 (d + 365.25) c := by
  have ha : calculate_annual_variation (d + 365.25) =
      calculate_annual_variation d + 2 * π := by
    unfold calculate_annual_variation
    field_simp
    ring
  have hs : calculate_semi_annual_variation (d + 365.25) =
      calculate_semi_annual_variation d + 2 * π + 2 * π := by
    unfold calculate_semi_annual_variation
    field_simp
    ring
  simp only [calculate_seasonal_variation_F2, ha, hs, Real.cos_add_two_pi]

/-- Claim C10: whenever the latitude is nonzero the bite-out onset time is
`13 ± 1.5*cos(...)`, which lies in the closed interval `[11.5, 14.5]`. -/
theorem bite_out_onset_time_range (lat d : ℝ) (h : lat ≠ 0) :
    ∃ v, calculate_local_time_at_beginning_of_bite_out lat d = Except.ok v ∧
      11.5 ≤ v ∧ v ≤ 14.5 := by
  have hsign : lat / |lat| = 1 ∨ lat / |lat| = -1 := by
    rcases h.lt_or_lt with hneg | hpos
    · right
      rw [abs_of_neg hneg, div_neg, div_self h]
    · left
      rw [abs_of_pos hpos, div_self h]
  have hc1 := Real.neg_one_le_cos ((2 * π * (d - 181)) / 365.25)
  have hc2 := Real.cos_le_one ((2 * π * (d - 181)) / 365.25)
  refine ⟨13 + 1.5 * Real.cos ((2 * π * (d - 181)) / 365.25) * (lat / |lat|),
    ?_, ?_, ?_⟩
  · unfold calculate_local_time_at_beginning_of_bite_out
    rw [if_neg h]
  · rcases hsign with hs | hs <;> rw [hs] <;> nlinarith
  · rcases hsign with hs | hs <;> rw [hs] <;> nlinarith

/-- Witness for claim C10 at the module-level demo inputs. -/
theorem bite_out_onset_time_range_witness :
    ∃ v, calculate_local_time_at_beginning_of_bite_out 0.867 258 =
      Except.ok v ∧ 11.5 ≤ v ∧ v ≤ 14.5 :=
  bite_out_onset_time_range 0.867 258 (by norm_num)

/-- Claim C1 counterexample: with coefficients `c11 = 0`, `c12 = 1` and
solar flux `1` the source returns `0 + 1*1*12 = 12`, not the claimed
`c11 + c12*s = 1`: the fixed `delta_F107 = 12` multiplier IS applied. -/
theorem solar_activity_F5_times_twelve_cex :
    calculate_solar_activity_F5 1 [0,0,0,0,0,0,0,0,0,0,0,0,1] = Except.ok 12 ∧
    (12:ℝ) ≠ 0 + 1 * 1 := by
  constructor
  · show Except.ok ((0:ℝ) + 1 * 1 * 12) = Except.ok 12
    exact congrArg Except.ok (by norm_num)
  · norm_num

/-- Claim C1 (amended): for every solar flux `s` and coefficient vector
with at least 13 entries, F5 returns `c11 + c12 * s * 12`: linear in `s`
but with the flux index multiplied by the fixed `ΔF10.7 = 12` constant. -/
theorem solar_activity_F5_formula (s : ℝ) (c : List ℝ) (h : 13 ≤ c.length) :
    calculate_solar_activity_F5 s c =
      Except.ok (c.get ⟨11, by omega⟩ + c.get ⟨12, by omega⟩ * s * 12) := by
  have h11 : 11 < c.length := by omega
  have h12 : 12 < c.length := by omega
  simp only [calculate_solar_activity_F5, listGet_ok h11, listGet_ok h12]
  rfl

/-- Witness for claim C1: `F5(2, [0,...,0,3,5]) = 3 + 5*2*12 = 123`. -/
theorem solar_activity_F5_formula_witness :
    calculate_solar_activity_F5 2 [0,0,0,0,0,0,0,0,0,0,0,3,5] =
      Except.ok 123 := by
  have h := solar_activity_F5_formula 2 [0,0,0,0,0,0,0,0,0,0,0,3,5] (by simp)
  rw [h]
  show Except.ok ((3:ℝ) + 5 * 2 * 12) = Except.ok 123
  exact congrArg Except.ok (by norm_num)

/-- Claim C3 counterexample: at latitude `0` (all other demo inputs valid)
the local-time factor fails with the propagated `ZeroDivisionError` of the
sign term `lat / fabs(lat)`, which is not the `DomainError` the claim
requires to be raised explicitly. -/
theorem local_time_F1_zero_latitude_cex :
    calculate_local_time_F1 18 0 0.8712 258 [1,2,3,4,5,6,7,8,9,10,11,12,13] =
      Except.error PyError.zeroDivisionError ∧
    PyError.zeroDivisionError ≠ PyError.domainError := by
  constructor
  · unfold calculate_local_time_F1 calculate_summer_daytime_bite_out
      calculate_local_time_at_beginning_of_bite_out
    rw [if_pos rfl]
    rfl
  · decide

/-- Claim C3 (amended): at latitude `0` the F1 computation fails with a
silently propagated `ZeroDivisionError` (the code never raises a
`DomainError`); for every nonzero latitude and a coefficient vector with
at least 13 entries, no step of the F1 computation fails. -/
theorem local_time_F1_error_behavior (t lat decl d : ℝ) (c : List ℝ) :
    (lat = 0 → calculate_local_time_F1 t lat decl d c =
      Except.error PyError.zeroDivisionError) ∧
    (lat ≠ 0 → 13 ≤ c.length →
      ∃ v, calculate_local_time_F1 t lat decl d c = Except.ok v) := by
  constructor
  · intro h0
    subst h0
    unfold calculate_local_time_F1 calculate_summer_daytime_bite_out
      calculate_local_time_at_beginning_of_bite_out
    rw [if_pos rfl]
    rfl
  · intro hne hlen
    simp only [calculate_local_time_F1, calculate_summer_daytime_bite_out,
      calculate_local_time_at_beginning_of_bite_out, if_neg hne,
      listGet_ok (show 0 < c.length by omega),
      listGet_ok (show 1 < c.length by omega),
      listGet_ok (show 2 < c.length by omega),
      listGet_ok (show 3 < c.length by omega),
      listGet_ok (show 4 < c.length by omega),
      listGet_ok (show 5 < c.length by omega)]
    exact ⟨_, rfl⟩

/-- Witness for claim C3: both branches at concrete inputs (latitude `0`
errors, the demo latitude `0.867` succeeds). -/
theorem local_time_F1_error_behavior_witness :
    calculate_local_time_F1 12 0 0.5 100 [1,2,3,4,5,6,7,8,9,10,11,12,13] =
      Except.error PyError.zeroDivisionError ∧
    ∃ v, calculate_local_time_F1 18 0.867 0.8712 258
      [1,2,3,4,5,6,7,8,9,10,11,12,13] = Except.ok v :=
  ⟨(local_time_F1_error_behavior 12 0 0.5 100
      [1,2,3,4,5,6,7,8,9,10,11,12,13]).1 rfl,
   (local_time_F1_error_behavior 18 0.867 0.8712 258
      [1,2,3,4,5,6,7,8,9,10,11,12,13]).2 (by norm_num) (by simp)⟩

/-- Claim C4 counterexample: no validation happens anywhere.  A too-short
coefficient vector makes F5 fail with an `IndexError` raised at the
coefficient access inside the factor computation — not a
`ValidationError` before computation begins — and an out-of-domain
`day_of_year = 1000` raises nothing at all (F2 happily returns a value). -/
theorem no_validation_cex :
    calculate_solar_activity_F5 1.5 [] = Except.error PyError.indexError ∧
    PyError.indexError ≠ PyError.validationError ∧
    calculate_seasonal_variation_F2 1000 [1,2,3,4,5,6,7,8,9,10,11,12,13] =
      Except.ok (1 + 7 * Real.cos (calculate_annual_variation 1000) +
        8 * Real.cos (calculate_semi_annual_variation 1000)) := by
  refine ⟨rfl, by decide, rfl⟩

/-- Claim C4 (amended): the constructors validate nothing.  Every
coefficient vector with fewer than 13 entries makes F5 fail with an
`IndexError` during the factor computation itself (discovered
mid-pipeline), and an out-of-domain day of year produces no error at all:
F2 returns a value for any real day when the vector is long enough. -/
theorem no_fail_fast_validation (s d : ℝ) (c cshort : List ℝ)
    (hshort : cshort.length < 13) (hlen : 13 ≤ c.length) :
    calculate_solar_activity_F5 s cshort = Except.error PyError.indexError ∧
    ∃ v, calculate_seasonal_variation_F2 d c = Except.ok v := by
  constructor
  · rcases le_or_lt cshort.length 11 with hle | hgt
    · unfold calculate_solar_activity_F5
      rw [listGet_idx hle]
      rfl
    · have h12 : cshort.length ≤ 12 := by omega
      simp only [calculate_solar_activity_F5, listGet_ok hgt, listGet_idx h12]
      rfl
  · simp only [calculate_seasonal_variation_F2,
      listGet_ok (show 6 < c.length by omega),
      listGet_ok (show 7 < c.length by omega)]
    exact ⟨_, rfl⟩

/-- Witness for claim C4 at concrete inputs: a 3-entry vector and an
out-of-domain day `1000`. -/
theorem no_fail_fast_validation_witness :
    calculate_solar_activity_F5 1.5 [1,2,3] = Except.error PyError.indexError ∧
    ∃ v, calculate_seasonal_variation_F2 1000 [1,2,3,4,5,6,7,8,9,10,11,12,13] =
      Except.ok v :=
  no_fail_fast_validation 1.5 1000 [1,2,3,4,5,6,7,8,9,10,11,12,13] [1,2,3]
    (by simp) (by simp)

/-- Claim C2: the bite-out magnitude the design document specifies differs
from what the code computes.  At latitude `45`, day `181` the onset time is
`14.5`, and at local time `14.5` the specified four-term product is exactly
`1`; but the code (which squares nothing in the latitude envelope —
`fabs(lat) - 45**2` — plugs the latitude instead of the local time into
the time Gaussian, and multiplies instead of dividing by `2*3^2`) returns
a value strictly below `1`. -/
theorem summer_daytime_bite_out_bug :
    bite_out_magnitude_spec 14.5 45 181 14.5 = 1 ∧
    calculate_local_time_at_beginning_of_bite_out 45 181 = Except.ok 14.5 ∧
    ∃ v, calculate_summer_daytime_bite_out 45 181 = Except.ok v ∧ v < 1 := by
  have habs : |(45:ℝ)| = 45 := abs_of_nonneg (by norm_num)
  have hang : (2 * π * ((181:ℝ) - 181)) / 365.25 = 0 := by
    norm_num
  have hltbo : calculate_local_time_at_beginning_of_bite_out 45 181 =
      Except.ok 14.5 := by
    unfold calculate_local_time_at_beginning_of_bite_out
    rw [if_neg (by norm_num : (45:ℝ) ≠ 0), hang, Real.cos_zero, habs]
    exact congrArg Except.ok (by norm_num)
  refine ⟨?_, hltbo, ?_⟩
  · unfold bite_out_magnitude_spec
    rw [habs, hang, Real.cos_zero]
    norm_num [Real.exp_zero]
  · refine ⟨Real.exp (-((|(45:ℝ)| - 45 ^ 2) / (2 * 14 ^ 2))) *
      Real.cos ((2 * π * ((181:ℝ) - 181)) / 365.25) *
      Real.exp (-(((45:ℝ) - 14.5) ^ 2 / 2 * 3 ^ 2)) * (45 / |(45:ℝ)|), ?_, ?_⟩
    · unfold calculate_summer_daytime_bite_out
      rw [hltbo]
      rfl
    · rw [habs, hang, Real.cos_zero, mul_one]
      rw [show ((45:ℝ) / 45) = 1 by norm_num, mul_one, ← Real.exp_add,
        Real.exp_lt_one_iff]
      norm_num

/-- Claim C8 counterexample: the claim quantifies over all coefficients,
but with `c9 = -1` the first crest term at the crest latitude `16` is
strictly SMALLER than at latitude `1016`, so the term is not maximized at
the crest latitude for negative coefficients. -/
theorem ionization_crest_max_cex :
    (-1 : ℝ) * Real.exp (calculate_ionization_crest_1 16 12) <
      (-1 : ℝ) * Real.exp (calculate_ionization_crest_1 1016 12) := by
  have h0 : calculate_ionization_crest_1 16 12 = 0 := by
    unfold calculate_ionization_crest_1
    norm_num
  have hneg : calculate_ionization_crest_1 1016 12 < 0 := by
    unfold calculate_ionization_crest_1
    have h10 := (half_width_bounds 12).1
    have hb : (0:ℝ) < 2 * calculate_half_width 12 ^ 2 := by nlinarith
    have ha : (0:ℝ) < ((1016:ℝ) - 16) ^ 2 := by norm_num
    exact neg_lt_zero.mpr (div_pos ha hb)
  have h1 : Real.exp (calculate_ionization_crest_1 1016 12) < 1 :=
    Real.exp_lt_one_iff.mpr hneg
  rw [h0, Real.exp_zero]
  nlinarith [h1]

/-- Claim C8 (amended): for every POSITIVE crest coefficient, each
Gaussian crest term is maximized precisely at its crest latitude — the
first crest term `coef * exp(crest_1)` attains its maximum exactly at
geomagnetic latitude `16`, and the second exactly at `-15`, all else
fixed. -/
theorem ionization_crest_max (coef t g : ℝ) (hc : 0 < coef) :
    (coef * Real.exp (calculate_ionization_crest_1 g t) ≤
        coef * Real.exp (calculate_ionization_crest_1 16 t) ∧
      (coef * Real.exp (calculate_ionization_crest_1 g t) =
          coef * Real.exp (calculate_ionization_crest_1 16 t) → g = 16)) ∧
    (coef * Real.exp (calculate_ionization_crest_2 g t) ≤
        coef * Real.exp (calculate_ionization_crest_2 (-15) t) ∧
      (coef * Real.exp (calculate_ionization_crest_2 g t) =
          coef * Real.exp (calculate_ionization_crest_2 (-15) t) → g = -15)) := by
  have h10 := (half_width_bounds t).1
  have hy : (0:ℝ) < 2 * calculate_half_width t ^ 2 := by nlinarith
  have h016 : calculate_ionization_crest_1 16 t = 0 := by
    unfold calculate_ionization_crest_1
    norm_num
  have h015 : calculate_ionization_crest_2 (-15) t = 0 := by
    unfold calculate_ionization_crest_2
    norm_num
  have a1 := crest_aux coef (2 * calculate_half_width t ^ 2) (g - 16) hc hy
  have a2 := crest_aux coef (2 * calculate_half_width t ^ 2) (g - (-15)) hc hy
  constructor
  · rw [h016, Real.exp_zero]
    constructor
    · exact a1.1
    · intro h
      have := a1.2 h
      linarith [this]
  · rw [h015, Real.exp_zero]
    constructor
    · exact a2.1
    · intro h
      have := a2.2 h
      linarith [this]

/-- Witness for claim C8 with `coef = 1`, local time `12`, latitude `3`. -/
theorem ionization_crest_max_witness :
    (1:ℝ) * Real.exp (calculate_ionization_crest_1 3 12) ≤
      1 * Real.exp (calculate_ionization_crest_1 16 12) ∧
    (1:ℝ) * Real.exp (calculate_ionization_crest_2 3 12) ≤
      1 * Real.exp (calculate_ionization_crest_2 (-15) 12) :=
  ⟨((ionization_crest_max 1 12 3 (by norm_num)).1).1,
   ((ionization_crest_max 1 12 3 (by norm_num)).2).1⟩

/-- Claim C9: two-run noninterference across coefficient slices — each
factor depends only on its designated slice of the coefficient vector
(F1 on indices 0–5, F2 on 6–7, F3 on 8, F4 on 9–10, F5 on 11–12):
coefficient vectors that agree on a factor's slice give that factor the
same result. -/
theorem coefficient_slice_noninterference (t lat decl d g s : ℝ)
    (c c₂ : List ℝ) :
    ((∀ i, i ≤ 5 → c.get? i = c₂.get? i) →
      calculate_local_time_F1 t lat decl d c =
        calculate_local_time_F1 t lat decl d c₂) ∧
    ((∀ i, 6 ≤ i → i ≤ 7 → c.get? i = c₂.get? i) →
      calculate_seasonal_variation_F2 d c =
        calculate_seasonal_variation_F2 d c₂) ∧
    (c.get? 8 = c₂.get? 8 →
      calculate_geomagentic_field_dependency g c =
        calculate_geomagentic_field_dependency g c₂) ∧
    ((∀ i, 9 ≤ i → i ≤ 10 → c.get? i = c₂.get? i) →
      calculate_ionization_crest_F4 g t c =
        calculate_ionization_crest_F4 g t c₂) ∧
    ((∀ i, 11 ≤ i → i ≤ 12 → c.get? i = c₂.get? i) →
      calculate_solar_activity_F5 s c = calculate_solar_activity_F5 s c₂) := by
  refine ⟨?_, ?_, ?_, ?_, ?_⟩
  · intro hagree
    simp only [calculate_local_time_F1, listGet,
      hagree 0 (by norm_num), hagree 1 (by norm_num), hagree 2 (by norm_num),
      hagree 3 (by norm_num), hagree 4 (by norm_num), hagree 5 (by norm_num)]
  · intro hagree
    simp only [calculate_seasonal_variation_F2, listGet,
      hagree 6 (by norm_num) (by norm_num), hagree 7 (by norm_num) (by norm_num)]
  · intro hagree
    simp only [calculate_geomagentic_field_dependency, listGet, hagree]
  · intro hagree
    simp only [calculate_ionization_crest_F4, listGet,
      hagree 9 (by norm_num) (by norm_num), hagree 10 (by norm_num) (by norm_num)]
  · intro hagree
    simp only [calculate_solar_activity_F5, listGet,
      hagree 11 (by norm_num) (by norm_num), hagree 12 (by norm_num) (by norm_num)]

/-- Witness for claim C9: changing coefficients 6–12 does not change F1 at
the demo inputs. -/
theorem coefficient_slice_noninterference_witness :
    calculate_local_time_F1 18 0.867 0.8712 258
      [1,2,3,4,5,6,0,0,0,0,0,0,0] =
    calculate_local_time_F1 18 0.867 0.8712 258
      [1,2,3,4,5,6,7,8,9,10,11,12,13] :=
  (coefficient_slice_noninterference 18 0.867 0.8712 258 0.049 1.5
    [1,2,3,4,5,6,0,0,0,0,0,0,0] [1,2,3,4,5,6,7,8,9,10,11,12,13]).1
    (by
      intro i hi
      interval_cases i <;> rfl)

end NPDM
